import Mathlib

/-!
Shallow embedding of the connection-lifecycle and message-consumption core of
the user-service repository: the RabbitMQ client (`Consume`, `Publish`,
`HealthCheck` in `internal/adapters/messaging/rabbitmq`) and the connection
registry (`NewDatabaseConnections`, `Close`, `HealthCheck` in
`internal/infrastructure/connection_manager.go`).

The consumption loop is modelled as a function from the resolved sequence of
`select` outcomes (message delivered, delivery channel closed, context
cancelled) to the trace of observable actions (handler invocations, acks,
nacks) together with the loop's return value.  Durations-sensitive behaviour
of the registry health check is modelled with an instrumented clock in which
each backend probe takes a stated number of seconds and sequential calls
accumulate time.
-/

namespace UserService

/-- Result of a caller-supplied message handler: `success` (handler returned
nil) or `failure` (handler returned a non-nil error). -/
inductive HandlerResult
  | success
  | failure
deriving DecidableEq, Repr

/-- One message delivery pulled from the broker channel.  `tag` identifies the
delivery; `result` is what the handler returns for it; `ackOk` / `nackOk`
record whether the broker-side `Ack` / `Nack` call would succeed (the Go code
ignores these return values). -/
structure Delivery where
  tag : Nat
  result : HandlerResult
  ackOk : Bool
  nackOk : Bool
deriving DecidableEq, Repr

/-- Observable actions of `Consume`: the subscription registration, handler
start and end, and the acknowledgment outcomes.  `ok` on `ack`/`nack` records
the (discarded) result of the broker call; `multiple` and `requeue` are the
boolean arguments passed in the source (`msg.Ack(false)`,
`msg.Nack(false, true)`). -/
inductive Action
  | subscribe
  | handlerStart (tag : Nat)
  | handlerEnd (tag : Nat) (r : HandlerResult)
  | ack (tag : Nat) (multiple : Bool) (ok : Bool)
  | nack (tag : Nat) (multiple : Bool) (requeue : Bool) (ok : Bool)
deriving DecidableEq, Repr

/-- Resolution of one round of the loop's `select`: a message arrives
(`ok = true` on the Go channel receive), the delivery channel is closed
(`ok = false`), or the governing context is done. -/
inductive SelectEvent
  | deliver (d : Delivery)
  | chanClosed
  | ctxDone
deriving DecidableEq, Repr

/-- Errors `Consume` can return: the initial `channel.Consume` registration
failed, the message channel closed (`"message channel closed"`), or the
context was cancelled (`ctx.Err()`). -/
inductive ConsumeErr
  | subscribeFailed
  | channelClosed
  | ctxErr
deriving DecidableEq, Repr

/-- The actions emitted for one delivered message, translating the body of the
`case msg, ok := <-msgs` branch: the handler is invoked synchronously, then
`msg.Nack(false, true)` on handler error, else `msg.Ack(false)`. -/
def msgTrace (d : Delivery) : List Action :=
  Action.handlerStart d.tag :: Action.handlerEnd d.tag d.result ::
    (match d.result with
     | HandlerResult.success => [Action.ack d.tag false d.ackOk]
     | HandlerResult.failure => [Action.nack d.tag false true d.nackOk])

/-- The `for { select { ... } }` loop of `Consume`, applied to the resolved
sequence of select outcomes.  An exhausted event list models a loop still
blocked in `select` (no return yet), hence the `none` return value. -/
def consumeLoop : List SelectEvent → List Action × Option ConsumeErr
  | [] => ([], none)
  | SelectEvent.deliver d :: rest =>
      let r := consumeLoop rest
      (msgTrace d ++ r.1, r.2)
  | SelectEvent.chanClosed :: _ => ([], some ConsumeErr.channelClosed)
  | SelectEvent.ctxDone :: _ => ([], some ConsumeErr.ctxErr)

/-- `Consume`: registers the consumer once via `channel.Consume` (failing with
a wrapped error when registration fails) and then runs the loop. -/
def Consume (subscribeOk : Bool) (events : List SelectEvent) :
    List Action × Option ConsumeErr :=
  if subscribeOk then
    let r := consumeLoop events
    (Action.subscribe :: r.1, r.2)
  else ([Action.subscribe], some ConsumeErr.subscribeFailed)

/-- Is this action an `Ack`? -/
def isAck : Action → Bool
  | Action.ack _ _ _ => true
  | _ => false

/-- Is this action a `Nack`? -/
def isNack : Action → Bool
  | Action.nack _ _ _ _ => true
  | _ => false

/-- Is this action an acknowledgment outcome (ack or nack)? -/
def isOutcome (a : Action) : Bool := isAck a || isNack a

/-- Is this action a subscription registration? -/
def isSubscribe : Action → Bool
  | Action.subscribe => true
  | _ => false

/-- The single acknowledgment outcome the loop issues for a delivery, as
dictated by its handler result. -/
def outcomeAction (d : Delivery) : Action :=
  match d.result with
  | HandlerResult.success => Action.ack d.tag false d.ackOk
  | HandlerResult.failure => Action.nack d.tag false true d.nackOk

theorem msgTrace_eq (d : Delivery) :
    msgTrace d = [Action.handlerStart d.tag, Action.handlerEnd d.tag d.result,
      outcomeAction d] := by
  cases h : d.result <;> simp [msgTrace, outcomeAction, h]

theorem consumeLoop_append_deliver (ds : List Delivery) (rest : List SelectEvent) :
    consumeLoop (ds.map SelectEvent.deliver ++ rest)
      = (ds.flatMap msgTrace ++ (consumeLoop rest).1, (consumeLoop rest).2) := by
  induction ds with
  | nil => simp
  | cons d ds ih => simp [consumeLoop, ih]

theorem consumeLoop_deliver_only (ds : List Delivery) :
    consumeLoop (ds.map SelectEvent.deliver) = (ds.flatMap msgTrace, none) := by
  have h := consumeLoop_append_deliver ds []
  simpa [consumeLoop] using h

theorem filter_outcome_flatMap (ds : List Delivery) :
    (ds.flatMap msgTrace).filter isOutcome = ds.map outcomeAction := by
  induction ds with
  | nil => rfl
  | cons d ds ih =>
      cases h : d.result <;>
        simp [msgTrace, outcomeAction, isOutcome, isAck, isNack, h, ih]

theorem filter_ack_flatMap (ds : List Delivery)
    (h : ∀ d ∈ ds, d.result = HandlerResult.success) :
    ((ds.flatMap msgTrace).filter isAck).length = ds.length := by
  induction ds with
  | nil => rfl
  | cons d ds ih =>
      have hd : d.result = HandlerResult.success := h d (by simp)
      have hds : ∀ d ∈ ds, d.result = HandlerResult.success := by
        intro x hx; exact h x (by simp [hx])
      simp [msgTrace, isAck, hd, ih hds]

theorem filter_nack_flatMap (ds : List Delivery)
    (h : ∀ d ∈ ds, d.result = HandlerResult.success) :
    (ds.flatMap msgTrace).filter isNack = [] := by
  induction ds with
  | nil => rfl
  | cons d ds ih =>
      have hd : d.result = HandlerResult.success := h d (by simp)
      have hds : ∀ d ∈ ds, d.result = HandlerResult.success := by
        intro x hx; exact h x (by simp [hx])
      simp [msgTrace, isNack, hd, ih hds]

theorem nack_requeue_flatMap (ds : List Delivery) (t : Nat) (m rq ok : Bool)
    (hmem : Action.nack t m rq ok ∈ ds.flatMap msgTrace) : rq = true := by
  induction ds with
  | nil => simp at hmem
  | cons d ds ih =>
      rw [List.flatMap_cons, List.mem_append] at hmem
      rcases hmem with hmem | hmem
      · cases h : d.result <;> simp [msgTrace, h] at hmem
        exact hmem.2.2.1
      · exact ih hmem

/-- Claim C1: per delivered message, exactly one acknowledgment outcome is
issued, determined by the handler result — `Ack` on `Success`, `Nack` with
`requeue = true` on `Failure`; over any run whose handlers all return
`Success`, there are exactly as many acks as deliveries and zero nacks. -/
theorem consume_exactly_one_outcome (ds : List Delivery) :
    ((consumeLoop (ds.map SelectEvent.deliver)).1.filter isOutcome
        = ds.map outcomeAction)
    ∧ ((∀ d ∈ ds, d.result = HandlerResult.success) →
        ((consumeLoop (ds.map SelectEvent.deliver)).1.filter isAck).length
            = ds.length
        ∧ (consumeLoop (ds.map SelectEvent.deliver)).1.filter isNack = [])
    ∧ (∀ t m rq ok,
        Action.nack t m rq ok ∈ (consumeLoop (ds.map SelectEvent.deliver)).1 →
        rq = true) := by
  rw [consumeLoop_deliver_only]
  exact ⟨filter_outcome_flatMap ds,
    fun h => ⟨filter_ack_flatMap ds h, filter_nack_flatMap ds h⟩,
    fun t m rq ok hmem => nack_requeue_flatMap ds t m rq ok hmem⟩

/-- Witness for C1 at a concrete two-message all-success run. -/
theorem consume_exactly_one_outcome_witness :
    ((consumeLoop ([⟨1, HandlerResult.success, true, true⟩,
        ⟨2, HandlerResult.success, true, true⟩].map SelectEvent.deliver)).1.filter
          isAck).length = 2
    ∧ (consumeLoop ([⟨1, HandlerResult.success, true, true⟩,
        ⟨2, HandlerResult.success, true, true⟩].map
          SelectEvent.deliver)).1.filter isNack = [] :=
  (consume_exactly_one_outcome
    [⟨1, HandlerResult.success, true, true⟩,
     ⟨2, HandlerResult.success, true, true⟩]).2.1 (by decide)

theorem msgTrace_length (d : Delivery) : (msgTrace d).length = 3 := by
  rw [msgTrace_eq]; rfl

theorem flatMap_msgTrace_getElem (ds : List Delivery) (k i : Nat) (hi : i < 3) :
    (ds.flatMap msgTrace)[3 * k + i]?
      = (ds[k]?).bind fun d => (msgTrace d)[i]? := by
  induction ds generalizing k with
  | nil => simp
  | cons d ds ih =>
      cases k with
      | zero =>
          rw [List.flatMap_cons,
            List.getElem?_append_left (by rw [msgTrace_length]; omega)]
          simp
      | succ k =>
          rw [List.flatMap_cons,
            List.getElem?_append_right (by rw [msgTrace_length]; omega)]
          have harith : 3 * (k + 1) + i - (msgTrace d).length = 3 * k + i := by
            rw [msgTrace_length]; omega
          rw [harith, ih k]
          simp

theorem msgTrace_getElem_zero (d : Delivery) :
    (msgTrace d)[0]? = some (Action.handlerStart d.tag) := by
  rw [msgTrace_eq]; rfl

theorem msgTrace_getElem_two (d : Delivery) :
    (msgTrace d)[2]? = some (outcomeAction d) := by
  rw [msgTrace_eq]; rfl

/-- Claim C2: the loop is strictly serial — in the action trace, message `k`'s
acknowledgment outcome sits at position `3k+2` and message `k+1`'s handler
start sits at the strictly later position `3k+3`, so handler `k+1` never
begins before message `k` has been acked or nacked (per-queue concurrency is
exactly 1, in delivery order). -/
theorem consume_serial_order (ds : List Delivery) (k : Nat)
    (h : k + 1 < ds.length) :
    ((consumeLoop (ds.map SelectEvent.deliver)).1[3 * k + 2]?
        = some (outcomeAction (ds.get ⟨k, by omega⟩)))
    ∧ ((consumeLoop (ds.map SelectEvent.deliver)).1[3 * k + 3]?
        = some (Action.handlerStart (ds.get ⟨k + 1, h⟩).tag))
    ∧ 3 * k + 2 < 3 * k + 3 := by
  rw [consumeLoop_deliver_only]
  refine ⟨?_, ?_, by omega⟩
  · rw [flatMap_msgTrace_getElem ds k 2 (by omega),
      List.getElem?_eq_getElem (by omega : k < ds.length)]
    simp [msgTrace_getElem_two]
  · have h3 : 3 * k + 3 = 3 * (k + 1) + 0 := by omega
    rw [h3, flatMap_msgTrace_getElem ds (k + 1) 0 (by omega),
      List.getElem?_eq_getElem h]
    simp [msgTrace_getElem_zero]

/-- Witness for C2 on a concrete two-message run. -/
theorem consume_serial_order_witness :
    ((consumeLoop ([⟨1, HandlerResult.success, true, true⟩,
        ⟨2, HandlerResult.failure, true, true⟩].map SelectEvent.deliver)).1[2]?
        = some (Action.ack 1 false true))
    ∧ ((consumeLoop ([⟨1, HandlerResult.success, true, true⟩,
        ⟨2, HandlerResult.failure, true, true⟩].map SelectEvent.deliver)).1[3]?
        = some (Action.handlerStart 2)) := by
  have h := consume_serial_order
    [⟨1, HandlerResult.success, true, true⟩,
     ⟨2, HandlerResult.failure, true, true⟩] 0 (by decide)
  exact ⟨h.1, h.2.1⟩

theorem mem_flatMap_outcome (ds : List Delivery) (d : Delivery) (hd : d ∈ ds) :
    outcomeAction d ∈ ds.flatMap msgTrace := by
  rw [List.mem_flatMap]
  exact ⟨d, hd, by rw [msgTrace_eq]; simp⟩

/-- Claim C3: when the loop observes context cancellation, `Consume` returns
`ctx.Err()`; the trace contains nothing from the events after the
cancellation (no further message is pulled), and every message delivered
before the cancellation has been fully handled — its acknowledgment outcome
is in the trace — before the loop returns. -/
theorem consume_ctx_cancelled (ds : List Delivery) (post : List SelectEvent) :
    (Consume true (ds.map SelectEvent.deliver ++ SelectEvent.ctxDone :: post)
      = (Action.subscribe :: ds.flatMap msgTrace, some ConsumeErr.ctxErr))
    ∧ (∀ d ∈ ds, outcomeAction d ∈
        (Consume true
          (ds.map SelectEvent.deliver ++ SelectEvent.ctxDone :: post)).1) := by
  have hloop :
      consumeLoop (ds.map SelectEvent.deliver ++ SelectEvent.ctxDone :: post)
        = (ds.flatMap msgTrace, some ConsumeErr.ctxErr) := by
    rw [consumeLoop_append_deliver]; simp [consumeLoop]
  constructor
  · simp [Consume, hloop]
  · intro d hd
    simp [Consume, hloop]
    exact Or.inr ⟨d, hd, by rw [msgTrace_eq]; simp⟩

/-- Witness for C3: one in-flight failing message, then cancellation; its nack
is in the trace and the loop returns the context error. -/
theorem consume_ctx_cancelled_witness :
    Action.nack 7 false true true ∈
      (Consume true ([⟨7, HandlerResult.failure, true, true⟩].map
        SelectEvent.deliver ++ SelectEvent.ctxDone :: [])).1 :=
  (consume_ctx_cancelled [⟨7, HandlerResult.failure, true, true⟩] []).2
    ⟨7, HandlerResult.failure, true, true⟩ (by decide)

theorem flatMap_no_subscribe (ds : List Delivery) :
    (ds.flatMap msgTrace).filter isSubscribe = [] := by
  induction ds with
  | nil => rfl
  | cons d ds ih => cases h : d.result <;> simp [msgTrace, isSubscribe, h, ih]

/-- Claim C4: when the delivery channel closes while the context is live,
`Consume` returns a non-nil error (`"message channel closed"`), and its
whole trace holds exactly one subscription registration — the loop never
resubscribes or reconnects on its own. -/
theorem consume_channel_closed (ds : List Delivery) (post : List SelectEvent) :
    (Consume true (ds.map SelectEvent.deliver ++ SelectEvent.chanClosed :: post)
      = (Action.subscribe :: ds.flatMap msgTrace, some ConsumeErr.channelClosed))
    ∧ (Consume true
        (ds.map SelectEvent.deliver ++
          SelectEvent.chanClosed :: post)).2.isSome = true
    ∧ ((Consume true
        (ds.map SelectEvent.deliver ++
          SelectEvent.chanClosed :: post)).1.filter isSubscribe).length = 1 := by
  have hloop :
      consumeLoop (ds.map SelectEvent.deliver ++ SelectEvent.chanClosed :: post)
        = (ds.flatMap msgTrace, some ConsumeErr.channelClosed) := by
    rw [consumeLoop_append_deliver]; simp [consumeLoop]
  refine ⟨by simp [Consume, hloop], by simp [Consume, hloop], ?_⟩
  simp [Consume, hloop, isSubscribe, flatMap_no_subscribe ds]

/-- A delivery with the same tag and handler result whose broker-side ack and
nack calls both fail. -/
def failAcks (d : Delivery) : Delivery :=
  ⟨d.tag, d.result, false, false⟩

/-- Claim C9: the return values of `msg.Ack` and `msg.Nack` are discarded —
after any delivery the loop's continuation trace and return value are those
of the remaining events alone, and even when both broker acknowledgment
calls fail the returned error is unchanged: a failed ack/nack is never
surfaced and never terminates the loop. -/
theorem consume_discards_ack_results (d : Delivery) (rest : List SelectEvent) :
    (consumeLoop (SelectEvent.deliver d :: rest)
      = (msgTrace d ++ (consumeLoop rest).1, (consumeLoop rest).2))
    ∧ (consumeLoop (SelectEvent.deliver (failAcks d) :: rest)).2
        = (consumeLoop rest).2
    ∧ (consumeLoop [SelectEvent.deliver (failAcks d)]).2 = none := by
  refine ⟨by simp [consumeLoop], by simp [consumeLoop], by simp [consumeLoop]⟩

/-- The two backends the registry owns, used as health-check keys and in the
open/close traces. -/
inductive BackendName
  | store
  | broker
deriving DecidableEq, Repr

/-- Observable backend-lifecycle events of the registry: an attempt to open a
backend (with whether it succeeded) and a close of a backend. -/
inductive RegEvent
  | openAttempt (b : BackendName) (ok : Bool)
  | close (b : BackendName)
deriving DecidableEq, Repr

/-- The wrapped error `NewDatabaseConnections` returns, by failing backend. -/
inductive OpenErr
  | postgresFailed
  | rabbitFailed
deriving DecidableEq, Repr

/-- `NewDatabaseConnections`: opens PostgreSQL first, then RabbitMQ; when the
RabbitMQ connection fails it calls `pg.Close()` before returning the wrapped
error; when PostgreSQL fails nothing was opened so nothing is closed. -/
def NewDatabaseConnections (pgOk rmqOk : Bool) :
    List RegEvent × Option OpenErr :=
  if pgOk then
    if rmqOk then
      ([RegEvent.openAttempt BackendName.store true,
        RegEvent.openAttempt BackendName.broker true], none)
    else
      ([RegEvent.openAttempt BackendName.store true,
        RegEvent.openAttempt BackendName.broker false,
        RegEvent.close BackendName.store], some OpenErr.rabbitFailed)
  else ([RegEvent.openAttempt BackendName.store false],
    some OpenErr.postgresFailed)

/-- A backend is leaked by a trace when it was opened successfully but never
closed in that trace. -/
def leaked (tr : List RegEvent) (b : BackendName) : Bool :=
  tr.contains (RegEvent.openAttempt b true) && !(tr.contains (RegEvent.close b))

/-- Claim C5: the registry opens backends in the fixed order store-then-broker
(any broker attempt is preceded by a successful store open at the head of the
trace, and the store attempt is always first), and whenever
`NewDatabaseConnections` returns an error, no successfully opened backend is
left unclosed — nothing leaks to the caller. -/
theorem newDatabaseConnections_rollback (pgOk rmqOk : Bool) :
    ((NewDatabaseConnections pgOk rmqOk).1.head?
      = some (RegEvent.openAttempt BackendName.store pgOk))
    ∧ ((RegEvent.openAttempt BackendName.broker true
            ∈ (NewDatabaseConnections pgOk rmqOk).1
          ∨ RegEvent.openAttempt BackendName.broker false
            ∈ (NewDatabaseConnections pgOk rmqOk).1) →
        (NewDatabaseConnections pgOk rmqOk).1.head?
          = some (RegEvent.openAttempt BackendName.store true))
    ∧ ((NewDatabaseConnections pgOk rmqOk).2.isSome →
        leaked (NewDatabaseConnections pgOk rmqOk).1 BackendName.store = false
        ∧ leaked (NewDatabaseConnections pgOk rmqOk).1 BackendName.broker
            = false)
    ∧ ((NewDatabaseConnections pgOk rmqOk).2 = none →
        (NewDatabaseConnections pgOk rmqOk).1
          = [RegEvent.openAttempt BackendName.store true,
             RegEvent.openAttempt BackendName.broker true]) := by
  cases pgOk <;> cases rmqOk <;> decide

/-- Witness for C5: with a reachable store and an unreachable broker, the
store is closed before the error returns and neither backend leaks. -/
theorem newDatabaseConnections_rollback_witness :
    leaked (NewDatabaseConnections true false).1 BackendName.store = false
    ∧ leaked (NewDatabaseConnections true false).1 BackendName.broker = false :=
  (newDatabaseConnections_rollback true false).2.2.1 (by decide)

/-- `DatabaseConnections.Close`: closes RabbitMQ first, then PostgreSQL,
collecting each backend's close error; returns nil only when the error list
is empty, else one aggregate error carrying the whole list.  The inputs state
whether each backend's `Close` succeeds. -/
def DatabaseConnections.Close (rmqCloseOk pgCloseOk : Bool) :
    List RegEvent × Option (List BackendName) :=
  let errs : List BackendName :=
    (if rmqCloseOk then [] else [BackendName.broker])
      ++ (if pgCloseOk then [] else [BackendName.store])
  ([RegEvent.close BackendName.broker, RegEvent.close BackendName.store],
    if errs.isEmpty then none else some errs)

/-- Claim C6: `Close` attempts every backend in reverse creation order
(broker before store) regardless of failures, aggregates every failed close
into one returned error (the broker appears in it iff the broker close
failed, likewise the store), and returns nil exactly when both closes
succeed. -/
theorem databaseConnections_close_aggregate (rmqCloseOk pgCloseOk : Bool) :
    ((DatabaseConnections.Close rmqCloseOk pgCloseOk).1
      = [RegEvent.close BackendName.broker, RegEvent.close BackendName.store])
    ∧ ((DatabaseConnections.Close rmqCloseOk pgCloseOk).2 = none
        ↔ (rmqCloseOk = true ∧ pgCloseOk = true))
    ∧ (∀ l, (DatabaseConnections.Close rmqCloseOk pgCloseOk).2 = some l →
        ((BackendName.broker ∈ l ↔ rmqCloseOk = false)
          ∧ (BackendName.store ∈ l ↔ pgCloseOk = false))) := by
  cases rmqCloseOk <;> cases pgCloseOk <;> decide

/-- Witness for C6: both closes fail; both backends were still attempted and
both appear in the aggregate error. -/
theorem databaseConnections_close_aggregate_witness :
    BackendName.broker ∈ [BackendName.broker, BackendName.store]
    ∧ BackendName.store ∈ [BackendName.broker, BackendName.store] := by
  have h := (databaseConnections_close_aggregate false false).2.2
    [BackendName.broker, BackendName.store] (by decide)
  exact ⟨h.1.mpr (by decide), h.2.mpr (by decide)⟩

/-- `DatabaseConnections.HealthCheck`: builds the map `checks` by assigning
`checks["postgres"]` from the PostgreSQL probe and then `checks["rabbitmq"]`
from the RabbitMQ probe, passing the caller's context through unchanged.
Inputs are what each backend's probe returns (`none` = healthy). -/
def DatabaseConnections.HealthCheck (pgProbe rmqProbe : Option String) :
    List (String × Option String) :=
  [("postgres", pgProbe), ("rabbitmq", rmqProbe)]

/-- Timing of one registry health check under an instrumented clock: the two
probe calls in the source are sequential blocking calls, so the PostgreSQL
probe runs from time 0 for its full duration and the RabbitMQ probe starts
only when the PostgreSQL probe returns.  Durations are the seconds each
backend probe takes; the source imposes no per-probe timeout that could cut
them short. -/
structure HealthTiming where
  pgStart : Nat
  pgEnd : Nat
  rmqStart : Nat
  rmqEnd : Nat
deriving DecidableEq, Repr

/-- The schedule produced by the sequential probe calls of
`DatabaseConnections.HealthCheck` when the PostgreSQL probe takes `pgDur`
seconds and the RabbitMQ probe takes `rmqDur` seconds. -/
def healthCheckTiming (pgDur rmqDur : Nat) : HealthTiming :=
  { pgStart := 0, pgEnd := pgDur, rmqStart := pgDur, rmqEnd := pgDur + rmqDur }

/-- Counterexample to claim C7 at a store probe hanging for 10 seconds and a
broker probe taking 1 second: the probes are not concurrent (the broker probe
does not start at time 0) and the store probe is not bounded by a 3-second
per-probe timeout; the healthy broker's report entry is delayed past the
store probe's hang. -/
theorem healthCheck_not_concurrent :
    ¬((healthCheckTiming 10 1).rmqStart = 0
      ∧ (healthCheckTiming 10 1).pgEnd - (healthCheckTiming 10 1).pgStart ≤ 3
      ∧ (healthCheckTiming 10 1).rmqEnd ≤ 1 + 3) := by
  decide

/-- Claim C7 amended: the registry health check probes the backends
sequentially — store first for its full duration, broker starting exactly
when the store probe ends — with no per-probe timeout, and the report is
complete: it carries an entry for every backend holding exactly that
backend's probe result. -/
theorem healthCheck_sequential_complete (pgDur rmqDur : Nat)
    (pgProbe rmqProbe : Option String) :
    (healthCheckTiming pgDur rmqDur).pgStart = 0
    ∧ (healthCheckTiming pgDur rmqDur).pgEnd
        - (healthCheckTiming pgDur rmqDur).pgStart = pgDur
    ∧ (healthCheckTiming pgDur rmqDur).rmqStart
        = (healthCheckTiming pgDur rmqDur).pgEnd
    ∧ (healthCheckTiming pgDur rmqDur).rmqEnd
        - (healthCheckTiming pgDur rmqDur).rmqStart = rmqDur
    ∧ ((DatabaseConnections.HealthCheck pgProbe rmqProbe).map Prod.fst
        = ["postgres", "rabbitmq"])
    ∧ ((DatabaseConnections.HealthCheck pgProbe rmqProbe).lookup "postgres"
        = some pgProbe)
    ∧ ((DatabaseConnections.HealthCheck pgProbe rmqProbe).lookup "rabbitmq"
        = some rmqProbe) := by
  refine ⟨rfl, by simp [healthCheckTiming], rfl, by simp [healthCheckTiming],
    rfl, rfl, ?_⟩
  simp [DatabaseConnections.HealthCheck, List.lookup]

/-- The message the client hands to the broker channel, with the fields set
in the source: `ContentType: "application/json"`, the marshalled body, and
`DeliveryMode: amqp091.Persistent`. -/
structure Publishing where
  contentType : String
  body : List Nat
  deliveryMode : Nat
deriving DecidableEq, Repr

/-- The `amqp091.Persistent` delivery mode constant (2). -/
def persistentMode : Nat := 2

/-- The wrapped errors `Publish` can return: the `json.Marshal` failure
(`"failed to marshal message"`) or the channel publish failure
(`"failed to publish message"`). -/
inductive PubErr
  | marshalFailed (msg : String)
  | publishFailed (msg : String)
deriving DecidableEq, Repr

/-- `Publish`: marshals the payload (the outcome of `json.Marshal` is the
`marshalled` input), and on success performs exactly one
`PublishWithContext` call with a persistent JSON message; `chanErr` is what
the channel call returns (`none` = accepted).  The first component is the
list of delivery attempts handed to the channel. -/
def Publish (marshalled : Except String (List Nat)) (chanErr : Option String) :
    List Publishing × Option PubErr :=
  match marshalled with
  | Except.error e => ([], some (PubErr.marshalFailed e))
  | Except.ok body =>
      let p : Publishing := ⟨"application/json", body, persistentMode⟩
      match chanErr with
      | some e => ([p], some (PubErr.publishFailed e))
      | none => ([p], none)

/-- Claim C8: `Publish` makes at most one delivery attempt (no internal
retry); every attempt carries the marshalled body, JSON content type and the
persistent delivery mode; it returns nil exactly when marshalling succeeded
and the channel accepted the publish; a marshal failure yields the wrapped
marshal error with no attempt and a channel rejection yields the wrapped
publish error. -/
theorem publish_once_persistent (marshalled : Except String (List Nat))
    (chanErr : Option String) :
    ((Publish marshalled chanErr).1.length ≤ 1)
    ∧ (∀ p ∈ (Publish marshalled chanErr).1,
        p.contentType = "application/json" ∧ p.deliveryMode = persistentMode)
    ∧ ((Publish marshalled chanErr).2 = none
        ↔ ((∃ b, marshalled = Except.ok b) ∧ chanErr = none))
    ∧ (∀ b, marshalled = Except.ok b →
        (Publish marshalled chanErr).1 = [⟨"application/json", b,
          persistentMode⟩])
    ∧ (∀ e, marshalled = Except.error e →
        (Publish marshalled chanErr)
          = ([], some (PubErr.marshalFailed e)))
    ∧ (∀ b e, marshalled = Except.ok b → chanErr = some e →
        (Publish marshalled chanErr).2 = some (PubErr.publishFailed e)) := by
  cases marshalled <;> cases chanErr <;>
    simp [Publish]

/-- Witness for C8: a successful marshal and an accepting channel produce nil
and one persistent attempt. -/
theorem publish_once_persistent_witness :
    (Publish (Except.ok [1, 2]) none).2 = none
    ∧ (Publish (Except.ok [1, 2]) none).1
        = [⟨"application/json", [1, 2], persistentMode⟩] :=
  ⟨(publish_once_persistent (Except.ok [1, 2]) none).2.2.1.mpr
      ⟨⟨[1, 2], rfl⟩, rfl⟩,
    (publish_once_persistent (Except.ok [1, 2]) none).2.2.2.1 [1, 2] rfl⟩

/-- The state of an `amqp091.Connection` the health check inspects: whether
`IsClosed()` reports true. -/
structure AmqpConnection where
  isClosedFlag : Bool
deriving DecidableEq, Repr

/-- The fields of `RabbitMQClient` the health check reads: the connection
(`none` models a nil pointer) and the channel (`none` models nil). -/
structure RabbitMQClient where
  conn : Option AmqpConnection
  channel : Option Unit
deriving DecidableEq, Repr

/-- `RabbitMQClient.HealthCheck`: returns
`"rabbitmq connection is closed"` when the connection is nil or closed,
`"rabbitmq channel is nil"` when the channel is nil, and nil otherwise.  The
`ctx` argument is received but never read; the function performs no broker
round-trip. -/
def RabbitMQClient.HealthCheck (r : RabbitMQClient) (ctx : Nat) :
    Option String :=
  match r.conn with
  | none => some "rabbitmq connection is closed"
  | some c =>
      if c.isClosedFlag then some "rabbitmq connection is closed"
      else if r.channel.isNone then some "rabbitmq channel is nil"
      else none

/-- Claim C10: the broker health check ignores its context argument (the
result is the same for any two contexts, so no timeout can be exceeded and
no I/O wait occurs), and it returns a non-nil error exactly when the
connection is nil, the connection is closed, or the channel is nil. -/
theorem rabbitHealthCheck_pure (r : RabbitMQClient) (ctx₁ ctx₂ : Nat) :
    (RabbitMQClient.HealthCheck r ctx₁ = RabbitMQClient.HealthCheck r ctx₂)
    ∧ ((RabbitMQClient.HealthCheck r ctx₁).isSome
        ↔ (r.conn = none
            ∨ (∃ c, r.conn = some c ∧ c.isClosedFlag = true)
            ∨ r.channel = none)) := by
  constructor
  · rfl
  · cases hc : r.conn with
    | none => simp [RabbitMQClient.HealthCheck, hc]
    | some c =>
        cases hcl : c.isClosedFlag <;>
          cases hch : r.channel <;>
            simp [RabbitMQClient.HealthCheck, hc, hcl, hch]

/-- Witness for C10: a live connection with a nil channel reports unhealthy
regardless of the context passed. -/
theorem rabbitHealthCheck_pure_witness :
    (RabbitMQClient.HealthCheck ⟨some ⟨false⟩, none⟩ 0
      = RabbitMQClient.HealthCheck ⟨some ⟨false⟩, none⟩ 99)
    ∧ (RabbitMQClient.HealthCheck ⟨some ⟨false⟩, none⟩ 0).isSome :=
  ⟨(rabbitHealthCheck_pure ⟨some ⟨false⟩, none⟩ 0 99).1,
    (rabbitHealthCheck_pure ⟨some ⟨false⟩, none⟩ 0 99).2.mpr
      (Or.inr (Or.inr rfl))⟩

end UserService
